import Mathlib

/-!
# Gradual flow plugin: the request handler `Generate::run`

A shallow embedding of `include/plugin/modify.h`.  One iteration of the
handler's `while (true)` loop receives a request, looks the client's settings
up, turns the request's path records into self-contained line strings (each
one prefixed with the end point of the record before it), builds the initial
`GCodeState`, hands both to `processGcodePaths`, copies the result into the
response and dumps two debug SVG files.

The wire messages, the settings record, `GCodeState::processGcodePaths`,
`to_grpc_message` and `toSvgPath` are declared in headers that are not part of
the visible source; the handler takes them through `Collaborators`.
-/

namespace GradualFlow

/-! ## Data model -/

/-- A point of a path record on the wire (`point.x()`, `point.y()`). -/
structure Point2D where
  x : Int
  y : Int
  deriving DecidableEq, Repr

/-- The point type of the plugin's polylines, `ClipperLib::IntPoint`. -/
structure IntPoint where
  X : Int
  Y : Int
  deriving DecidableEq, Repr

/-- Modelled from the spec: the input record of one path segment (the wire
message `GCodePath`, whose declaration is missing): its ordered points
(`path().path()`), its target flow, its nominal speed and the opaque
attributes that are echoed back. -/
structure GCodePathMsg where
  path : List Point2D
  flow : ℚ
  speed : ℚ
  attributes : String
  deriving DecidableEq, Repr

/-- The request message: the path records and the layer number. -/
structure CallRequest where
  gcode_paths : List GCodePathMsg
  layer_nr : Int
  deriving DecidableEq, Repr

/-- The plugin's path, as the handler builds it.  `original_gcode_path_data`
is a non-owning pointer to a record of the request; it is held as the position
of that record in `request.gcode_paths()`. -/
structure GCodePath where
  original_gcode_path_data : Nat
  points : List IntPoint
  deriving DecidableEq, Repr

/-- Modelled from the spec: `RampedSubPath`, an element of the engine's
output: a path-shaped record with a constant flow. -/
structure RampedSubPath where
  original_gcode_path_data : Nat
  points : List IntPoint
  flow : ℚ
  deriving DecidableEq, Repr

/-- Modelled from the spec: the configuration record of one client
(`plugin/settings.h` is missing). -/
structure Settings where
  gradual_flow_enabled : Bool
  max_flow_acceleration : ℚ
  layer_0_max_flow_acceleration : ℚ
  gradual_flow_discretisation_step_size : ℚ
  deriving DecidableEq, Repr

/-- The three fields the handler initialises in `GCodeState`. -/
structure GCodeState where
  current_flow : ℚ
  flow_acceleration : ℚ
  discretized_duration : ℚ
  deriving DecidableEq, Repr

inductive StatusCode where
  | OK
  | INTERNAL
  deriving DecidableEq, Repr

structure Status where
  code : StatusCode
  message : String
  deriving DecidableEq, Repr

/-- The value of `grpc::Status::OK`. -/
def Status.OK : Status := ⟨StatusCode.OK, ""⟩

def Status.ok (s : Status) : Bool := s.code == StatusCode.OK

/-- What one handler iteration does that is visible outside of it, in order. -/
inductive Event where
  | engineCall (state : GCodeState) (gcode_paths : List GCodePath)
  | info (msg : String)
  | error (msg : String)
  | fileWritten (svg_path : String) (svg : String)
  deriving DecidableEq, Repr

/-- The code and environment the handler calls but that is declared
elsewhere.  Each call may throw a `std::exception`, whose `what()` is the
`Except` error.  `records` is the request's record array, which the path
pointers refer into.  `canOpen` tells whether `std::ofstream::open` succeeds
for a file name; a stream that failed to open ignores the write and does not
throw.  `out_of_range_what` is the `what()` of the exception of `at`. -/
structure Collaborators where
  processGcodePaths : (records : List GCodePathMsg) → GCodeState → List GCodePath →
    Except String (List RampedSubPath)
  to_grpc_message : (records : List GCodePathMsg) → RampedSubPath → Except String GCodePathMsg
  toSvgPath : GCodePath → Except String String
  toSvgPathDiscretized : RampedSubPath → Except String String
  canOpen : String → Bool
  out_of_range_what : String

/-! ## The path continuity adapter (the `gcode_paths` construction loop) -/

/-- The conversion `ClipperLib::IntPoint(point.x(), point.y())`; both sides
hold 64-bit integers, so the coordinates are taken over as they are. -/
def toIntPoint (point : Point2D) : IntPoint := ⟨point.x, point.y⟩

/-- The body of the loop up to the construction of `points`, at index `i`
with `gcode_path_msg = request.gcode_paths().at(i)`. -/
def buildPoints (gcode_paths : List GCodePathMsg) (i : Nat) (gcode_path_msg : GCodePathMsg) :
    List IntPoint :=
  let points : List IntPoint := []
  let points :=
    if i ≥ 1 then
      match gcode_paths[i - 1]? with
      | some prev =>
        let prev_path := prev.path
        if !prev_path.isEmpty then
          match prev_path[prev_path.length - 1]? with
          | some point => points ++ [toIntPoint point]
          | none => points
        else points
      | none => points
    else points
  points ++ gcode_path_msg.path.map toIntPoint

/-- The loop `for (int i = 0; i < request.gcode_paths().size(); ++i)`: one
`GCodePath` is pushed per record, pointing at that record. -/
def buildGcodePaths (request : CallRequest) : List GCodePath :=
  request.gcode_paths.enum.map fun (i, gcode_path_msg) =>
    { original_gcode_path_data := i
      points := buildPoints request.gcode_paths i gcode_path_msg }

/-! ## The handler -/

/-- The initial `GCodeState state { ... }`. -/
def initialState (global_settings : Settings) (request : CallRequest) : GCodeState :=
  { current_flow := 0
    flow_acceleration :=
      if request.layer_nr = 0 then global_settings.layer_0_max_flow_acceleration
      else global_settings.max_flow_acceleration
    discretized_duration := global_settings.gradual_flow_discretisation_step_size }

/-- The loop `for (auto& gcode_path : paths) svg += gcode_path.toSvgPath() + "\n"`. -/
def renderSvg {α : Type} (render : α → Except String String) :
    List α → String → Except String String
  | [], svg => Except.ok svg
  | gcode_path :: rest, svg =>
    match render gcode_path with
    | Except.error e => Except.error e
    | Except.ok s => renderSvg render rest (svg ++ (s ++ "\n"))

def svgHeader : String := "<svg xmlns=\"http://www.w3.org/2000/svg\" viewBox=\"0 0 200 200\">\n"

/-- One of the two "save svg" blocks.  Returns the exception if one was
thrown, the new value of `svg_counter` and the events of the block. -/
def saveSvg {α : Type} (c : Collaborators) (render : α → Except String String)
    (paths : List α) (suffix : String) (svg_counter : Nat) :
    Option String × Nat × List Event :=
  match renderSvg render paths svgHeader with
  | Except.error e => (some e, svg_counter, [])
  | Except.ok body =>
    let svg := body ++ "</svg>"
    let svg_path := "svg/svg_" ++ toString svg_counter ++ suffix
    (none, svg_counter + 1,
      Event.info ("svg_path: " ++ svg_path) ::
        (if c.canOpen svg_path then [Event.fileWritten svg_path svg] else []))

/-- The loop that fills the response with `to_grpc_message` of each path. -/
def fillResponse (c : Collaborators) (records : List GCodePathMsg) :
    List RampedSubPath → Except String (List GCodePathMsg)
  | [] => Except.ok []
  | gcode_path :: rest =>
    match c.to_grpc_message records gcode_path with
    | Except.error e => Except.error e
    | Except.ok m =>
      match fillResponse c records rest with
      | Except.error e => Except.error e
      | Except.ok ms => Except.ok (m :: ms)

/-- The result of the `try` block: the exception caught (if any), the
response as filled, the new `svg_counter` and the events. -/
structure TryResult where
  thrown : Option String
  response : List GCodePathMsg
  svg_counter : Nat
  trace : List Event
  deriving DecidableEq, Repr

/-- The body of the `try` block. -/
def tryBlock (c : Collaborators) (settings : String → Option Settings) (svg_counter : Nat)
    (client_metadata : String) (request : CallRequest) : TryResult :=
  match settings client_metadata with
  | none => ⟨some c.out_of_range_what, [], svg_counter, []⟩
  | some global_settings =>
    -- `if (!global_settings.gradual_flow_enabled) { /* TODO */ }`: an empty block
    let _ := if !global_settings.gradual_flow_enabled then () else ()
    let gcode_paths := buildGcodePaths request
    let state := initialState global_settings request
    let call := Event.engineCall state gcode_paths
    match c.processGcodePaths request.gcode_paths state gcode_paths with
    | Except.error e => ⟨some e, [], svg_counter, [call]⟩
    | Except.ok limited_flow_acceleration_paths =>
      match fillResponse c request.gcode_paths limited_flow_acceleration_paths with
      | Except.error e => ⟨some e, [], svg_counter, [call]⟩
      | Except.ok response =>
        match saveSvg c c.toSvgPath gcode_paths "_original.svg" svg_counter with
        | (some e, n1, ev1) => ⟨some e, response, n1, call :: ev1⟩
        | (none, n1, ev1) =>
          match saveSvg c c.toSvgPathDiscretized limited_flow_acceleration_paths
              "_discretized_path.svg" n1 with
          | (some e, n2, ev2) => ⟨some e, response, n2, call :: (ev1 ++ ev2)⟩
          | (none, n2, ev2) => ⟨none, response, n2, call :: (ev1 ++ ev2)⟩

/-- What the caller and the environment see of one iteration: the status the
call finishes with, the response sent (`none` for `finish_with_error`), the
new `svg_counter` and the events. -/
structure Outcome where
  status : Status
  response : Option (List GCodePathMsg)
  svg_counter : Nat
  trace : List Event
  deriving DecidableEq, Repr

/-- One iteration of `while (true)` in `Generate::run`, from the received
request to `finish` or `finish_with_error`. -/
def runOnce (c : Collaborators) (settings : String → Option Settings) (svg_counter : Nat)
    (client_metadata : String) (request : CallRequest) : Outcome :=
  let r := tryBlock c settings svg_counter client_metadata request
  let (status, trace) :=
    match r.thrown with
    | some what => (Status.mk StatusCode.INTERNAL what, r.trace ++ [Event.error ("Error: " ++ what)])
    | none => (Status.OK, r.trace)
  if !status.ok then
    ⟨status, none, r.svg_counter, trace⟩
  else
    ⟨status, some r.response, r.svg_counter, trace⟩

/-- An incoming call: the settings store as it is when the call is handled,
the client's identity and the request. -/
structure Call where
  settings : String → Option Settings
  client_metadata : String
  request : CallRequest

/-- The loop `while (true)` over the calls received so far; `svg_counter` is
the only variable that survives an iteration. -/
def run (c : Collaborators) : Nat → List Call → List Outcome
  | _, [] => []
  | svg_counter, call :: rest =>
    let o := runOnce c call.settings svg_counter call.client_metadata call.request
    o :: run c o.svg_counter rest

/-! ## Collaborators for concrete runs

`GCodeState::processGcodePaths` is declared in `gradual_flow/gcode_path.h`,
which is not part of the visible source, and it computes with floating-point
flows along arc lengths.  It is not modelled here.  The concrete runs below
need some engine to call; they use a stand-in that returns, for the scenario
of section 8 of the specification, the flows that section gives. -/

/-- The split of a polyline among ramp steps, which the stand-in engine
leaves open: `window points speed duration steps k` is the part of `points`
that step `k` out of `steps` occupies. -/
structure ArcLength where
  window : List IntPoint → (speed duration : ℚ) → (steps k : Nat) → List IntPoint

/-- A stand-in for the missing engine, for concrete runs only: every path is
answered with two sub-paths, at the flows 5 and 10 that section 8 of the
specification gives for its scenario (target flow 10 from flow 0 at
acceleration 5 and step 1).  It is an input of the examples and says nothing
about what the plugin's engine computes on other inputs. -/
def scenarioEngine (g : ArcLength) (records : List GCodePathMsg) (st : GCodeState)
    (paths : List GCodePath) : List RampedSubPath :=
  (paths.map fun path =>
    match records[path.original_gcode_path_data]? with
    | none => []
    | some record =>
      [⟨path.original_gcode_path_data,
          g.window path.points record.speed st.discretized_duration 2 0, 5⟩,
        ⟨path.original_gcode_path_data,
          g.window path.points record.speed st.discretized_duration 2 1, 10⟩]).flatten

/-- Modelled from the spec: the output record of a sub-path (the missing
`to_grpc_message`): the source record with the sub-path's points and flow. -/
def toGrpcMessage (records : List GCodePathMsg) (p : RampedSubPath) : Except String GCodePathMsg :=
  match records[p.original_gcode_path_data]? with
  | none => Except.error "no source record"
  | some record =>
    Except.ok { record with path := p.points.map (fun q => ⟨q.X, q.Y⟩), flow := p.flow }

/-- Collaborators for concrete runs: the stand-in engine, the output record
of the specification, a renderer that succeeds and files that can be opened. -/
def specCollaborators (g : ArcLength) : Collaborators :=
  { processGcodePaths := fun records st paths => Except.ok (scenarioEngine g records st paths)
    to_grpc_message := toGrpcMessage
    toSvgPath := fun p => Except.ok ("<path n=\"" ++ toString p.points.length ++ "\"/>")
    toSvgPathDiscretized := fun p => Except.ok ("<path n=\"" ++ toString p.points.length ++ "\"/>")
    canOpen := fun _ => true
    out_of_range_what := "unordered_map::at" }

/-- An arc-length split that gives every step the whole polyline. -/
def wholeWindow : ArcLength := ⟨fun points _ _ _ _ => points⟩

/-! ## Concrete inputs -/

/-- A record with the given points, flow 10, speed 50. -/
def seg (pts : List Point2D) : GCodePathMsg := ⟨pts, 10, 50, "WALL"⟩

/-- Four segments, the second one without points. -/
def exampleRequest : CallRequest :=
  { gcode_paths :=
      [seg [⟨0, 0⟩, ⟨10, 0⟩], seg [], seg [⟨20, 5⟩], seg [⟨30, 5⟩, ⟨40, 5⟩]]
    layer_nr := 1 }

/-- Two segments of one point each. -/
def twoSegmentRequest : CallRequest :=
  { gcode_paths := [seg [⟨0, 0⟩], seg [⟨1, 1⟩]], layer_nr := 1 }

/-- A segment with a point followed by a segment without points. -/
def emptySecondRequest : CallRequest :=
  { gcode_paths := [seg [⟨0, 0⟩], seg []], layer_nr := 1 }

/-- The scenario of the specification: one path along `(0,0), (100,0), (200,0)`
with target flow 10. -/
def scenarioRequest : CallRequest :=
  { gcode_paths := [seg [⟨0, 0⟩, ⟨100, 0⟩, ⟨200, 0⟩]], layer_nr := 1 }

/-- Settings with the flag as given, acceleration 5 (3 on layer 0), step 1. -/
def scenarioSettings (enabled : Bool) : Settings :=
  { gradual_flow_enabled := enabled
    max_flow_acceleration := 5
    layer_0_max_flow_acceleration := 3
    gradual_flow_discretisation_step_size := 1 }

/-- A settings store with one client. -/
def oneClientStore (s : Settings) : String → Option Settings :=
  fun client => if client = "client-1" then some s else none

/-- The collaborators of the concrete runs, except that rendering a built
path to SVG throws. -/
def failingRender : Collaborators :=
  { specCollaborators wholeWindow with
    toSvgPath := fun _ => Except.error "cannot render path" }

/-- The collaborators of the concrete runs, in an environment where no SVG
file can be opened (the directory `svg` does not exist). -/
def closedDirectory : Collaborators :=
  { specCollaborators wholeWindow with canOpen := fun _ => false }

/-- The scenario as a call of the known client. -/
def scenarioCall : Call :=
  { settings := oneClientStore (scenarioSettings true)
    client_metadata := "client-1"
    request := scenarioRequest }

/-- A call of the known client for layer 0. -/
def layerZeroCall : Call :=
  { settings := oneClientStore (scenarioSettings true)
    client_metadata := "client-1"
    request := { exampleRequest with layer_nr := 0 } }

/-! ## The adapter: what each built path holds -/

/-- The adapter's rule in the words of its contract: the points put in front
of segment `i` are the last point of segment `i - 1` when `i ≥ 1` and that
segment has a point, and nothing otherwise. -/
def leadPoints (segments : List GCodePathMsg) : Nat → List IntPoint
  | 0 => []
  | i + 1 =>
    match segments[i]? with
    | some prev => (prev.path.getLast?.map toIntPoint).toList
    | none => []

/-- The points of a segment, as polyline points. -/
def segmentPoints (s : GCodePathMsg) : List IntPoint := s.path.map toIntPoint

/-- The point lists of a list of paths, one after the other. -/
def concatPoints (paths : List GCodePath) : List IntPoint :=
  (paths.map fun p => p.points).flatten

/-- The point sequence of the segments as one line string in which every
shared end point is written twice: the points of each segment in order, and
after every segment but the final one a second copy of its last point (when
it has one). -/
def repeatShared : List GCodePathMsg → List IntPoint
  | [] => []
  | [s] => segmentPoints s
  | s :: next :: rest =>
    segmentPoints s ++ ((s.path.getLast?.map toIntPoint).toList ++ repeatShared (next :: rest))

/-- The number of points at the front of built path `i` that belong to the
segment before it: one when `i ≥ 1` and segment `i - 1` has a point. -/
def sharedCount (segments : List GCodePathMsg) (i : Nat) : Nat :=
  (leadPoints segments i).length

theorem buildPoints_eq (segments : List GCodePathMsg) (i : Nat) (m : GCodePathMsg) :
    buildPoints segments i m = leadPoints segments i ++ segmentPoints m := by
  cases i with
  | zero => simp [buildPoints, leadPoints, segmentPoints]
  | succ j =>
    simp only [buildPoints, leadPoints, segmentPoints]
    cases hj : segments[j]? with
    | none => simp [hj]
    | some prev =>
      cases hp : prev.path with
      | nil => simp [hj, hp]
      | cons a l => simp [hj, hp, List.getLast?_eq_getElem?]

theorem buildGcodePaths_length (request : CallRequest) :
    (buildGcodePaths request).length = request.gcode_paths.length := by
  simp [buildGcodePaths]

theorem buildGcodePaths_getElem? (request : CallRequest) (i : Nat) :
    (buildGcodePaths request)[i]? =
      request.gcode_paths[i]?.map fun m =>
        { original_gcode_path_data := i
          points := leadPoints request.gcode_paths i ++ segmentPoints m } := by
  simp only [buildGcodePaths, List.getElem?_map, List.getElem?_enum]
  cases request.gcode_paths[i]? <;> simp [buildPoints_eq]

/-! ## Claims about the adapter -/

/-- C2: the `i`-th path built by the handler holds `prefix_i ++ points of s_i`,
where `prefix_i` is the last point of `s_{i-1}` when `i ≥ 1` and `s_{i-1}` has a
point and is empty otherwise; the points of `s_i` follow in order with their
coordinates unchanged. -/
theorem adapter_lead_rule (request : CallRequest) (i : Nat) (s_i : GCodePathMsg)
    (h : request.gcode_paths[i]? = some s_i) :
    ∃ p, (buildGcodePaths request)[i]? = some p ∧
      p.points = leadPoints request.gcode_paths i ++ s_i.path.map toIntPoint ∧
      ∀ k q, s_i.path[k]? = some q →
        p.points[(leadPoints request.gcode_paths i).length + k]? = some ⟨q.x, q.y⟩ := by
  refine ⟨_, by rw [buildGcodePaths_getElem?, h]; rfl, rfl, ?_⟩
  intro k q hq
  simp [segmentPoints, List.getElem?_append_right, hq, toIntPoint]

theorem adapter_lead_rule_witness :
    exampleRequest.gcode_paths[3]? = some (seg [⟨30, 5⟩, ⟨40, 5⟩]) ∧
    ∃ p, (buildGcodePaths exampleRequest)[3]? = some p ∧
      p.points = leadPoints exampleRequest.gcode_paths 3 ++
        (seg [⟨30, 5⟩, ⟨40, 5⟩]).path.map toIntPoint ∧
      ∀ k q, (seg [⟨30, 5⟩, ⟨40, 5⟩]).path[k]? = some q →
        p.points[(leadPoints exampleRequest.gcode_paths 3).length + k]? = some ⟨q.x, q.y⟩ :=
  ⟨rfl, adapter_lead_rule exampleRequest 3 (seg [⟨30, 5⟩, ⟨40, 5⟩]) rfl⟩

/-- C8: for a request with `n` records the adapter builds exactly `n` paths,
and the `i`-th path's `original_gcode_path_data` refers to the `i`-th record,
also for records without points. -/
theorem adapter_one_to_one (request : CallRequest) :
    (buildGcodePaths request).length = request.gcode_paths.length ∧
    ∀ i, i < request.gcode_paths.length →
      (buildGcodePaths request)[i]?.map (fun p => p.original_gcode_path_data) = some i := by
  refine ⟨buildGcodePaths_length request, ?_⟩
  intro i hi
  rw [buildGcodePaths_getElem?, List.getElem?_eq_getElem hi]
  rfl

theorem adapter_one_to_one_witness :
    (buildGcodePaths exampleRequest).length = exampleRequest.gcode_paths.length ∧
    1 < exampleRequest.gcode_paths.length ∧
    (buildGcodePaths exampleRequest)[1]?.map (fun p => p.original_gcode_path_data) = some 1 :=
  ⟨(adapter_one_to_one exampleRequest).1, by decide,
    (adapter_one_to_one exampleRequest).2 1 (by decide)⟩

/-- C10: when segment `i` has a point, built path `i + 1` is non-empty and
starts at the last point of built path `i`; when segment `i` has no points,
built path `i + 1` is exactly the points of segment `i + 1`. -/
theorem adapter_connected (request : CallRequest) (i : Nat) (s_prev s_i : GCodePathMsg)
    (hprev : request.gcode_paths[i]? = some s_prev)
    (hi : request.gcode_paths[i + 1]? = some s_i) :
    ∃ p_prev p, (buildGcodePaths request)[i]? = some p_prev ∧
      (buildGcodePaths request)[i + 1]? = some p ∧
      (s_prev.path ≠ [] → p.points ≠ [] ∧ p.points.head? = p_prev.points.getLast?) ∧
      (s_prev.path = [] → p.points = s_i.path.map toIntPoint) := by
  refine ⟨_, _, by rw [buildGcodePaths_getElem?, hprev]; rfl,
    by rw [buildGcodePaths_getElem?, hi]; rfl, ?_, ?_⟩
  · intro hne
    obtain ⟨a, ha⟩ : ∃ a, s_prev.path.getLast? = some a := by
      cases hl : s_prev.path.getLast? with
      | none => exact absurd (List.getLast?_eq_none_iff.mp hl) hne
      | some a => exact ⟨a, rfl⟩
    simp [leadPoints, hprev, ha, segmentPoints]
  · intro he
    simp [leadPoints, hprev, he, segmentPoints]

theorem adapter_connected_witness :
    exampleRequest.gcode_paths[2]? = some (seg [⟨20, 5⟩]) ∧
    exampleRequest.gcode_paths[3]? = some (seg [⟨30, 5⟩, ⟨40, 5⟩]) ∧
    ∃ p_prev p, (buildGcodePaths exampleRequest)[2]? = some p_prev ∧
      (buildGcodePaths exampleRequest)[2 + 1]? = some p ∧
      ((seg [⟨20, 5⟩]).path ≠ [] → p.points ≠ [] ∧ p.points.head? = p_prev.points.getLast?) ∧
      ((seg [⟨20, 5⟩]).path = [] → p.points = (seg [⟨30, 5⟩, ⟨40, 5⟩]).path.map toIntPoint) :=
  ⟨rfl, rfl, adapter_connected exampleRequest 2 (seg [⟨20, 5⟩]) (seg [⟨30, 5⟩, ⟨40, 5⟩]) rfl rfl⟩

/-- C6, as stated, fails: the second segment has no points, the first one
has the point `(0, 0)`, and the second built path holds that point. -/
theorem empty_segment_not_empty :
    emptySecondRequest.gcode_paths[1]?.map (fun s => s.path) = some [] ∧
    (buildGcodePaths emptySecondRequest)[1]?.map (fun p => p.points) = some [⟨0, 0⟩] := by
  decide

/-- C6, amended: the built path of a segment without points holds only what
the adapter puts in front: nothing when `i = 0` or segment `i - 1` has no
points, and otherwise the single point that ends segment `i - 1`. -/
theorem empty_segment_holds_lead_only (request : CallRequest) (i : Nat) (s_i : GCodePathMsg)
    (h : request.gcode_paths[i]? = some s_i) (hempty : s_i.path = []) :
    ∃ p, (buildGcodePaths request)[i]? = some p ∧
      p.points.length ≤ 1 ∧
      (i = 0 → p.points = []) ∧
      (∀ j s_prev, i = j + 1 → request.gcode_paths[j]? = some s_prev →
        p.points = (s_prev.path.getLast?.map toIntPoint).toList ∧
        (s_prev.path = [] → p.points = [])) := by
  refine ⟨_, by rw [buildGcodePaths_getElem?, h]; rfl, ?_, ?_, ?_⟩
  · cases i with
    | zero => simp [leadPoints, segmentPoints, hempty]
    | succ j =>
      simp only [leadPoints, segmentPoints, hempty]
      cases request.gcode_paths[j]? with
      | none => simp
      | some prev => cases hl : prev.path.getLast? <;> simp [hl]
  · intro h0
    subst h0
    simp [leadPoints, segmentPoints, hempty]
  · intro j s_prev hj hp
    subst hj
    refine ⟨by simp [leadPoints, segmentPoints, hempty, hp], ?_⟩
    intro he
    simp [leadPoints, segmentPoints, hempty, hp, he]

theorem empty_segment_holds_lead_only_witness :
    emptySecondRequest.gcode_paths[1]? = some (seg []) ∧ (seg []).path = [] ∧
    ∃ p, (buildGcodePaths emptySecondRequest)[1]? = some p ∧
      p.points.length ≤ 1 ∧
      (1 = 0 → p.points = []) ∧
      (∀ j s_prev, 1 = j + 1 → emptySecondRequest.gcode_paths[j]? = some s_prev →
        p.points = (s_prev.path.getLast?.map toIntPoint).toList ∧
        (s_prev.path = [] → p.points = [])) :=
  ⟨rfl, rfl, empty_segment_holds_lead_only emptySecondRequest 1 (seg []) rfl rfl⟩

/-- C4, as stated, fails: for two segments of one point each, the built
paths concatenate to three points, the shared end point `(0, 0)` twice. -/
theorem concatenation_repeats_shared_point :
    concatPoints (buildGcodePaths twoSegmentRequest) = [⟨0, 0⟩, ⟨0, 0⟩, ⟨1, 1⟩] ∧
    (twoSegmentRequest.gcode_paths.map segmentPoints).flatten = [⟨0, 0⟩, ⟨1, 1⟩] ∧
    concatPoints (buildGcodePaths twoSegmentRequest) ≠
      (twoSegmentRequest.gcode_paths.map segmentPoints).flatten := by
  decide

theorem leadPoints_append_length (pre : List GCodePathMsg) (s : GCodePathMsg)
    (rest : List GCodePathMsg) :
    leadPoints (pre ++ s :: rest) (pre.length + 1) = (s.path.getLast?.map toIntPoint).toList := by
  have h : (pre ++ s :: rest)[pre.length]? = some s := by
    rw [List.getElem?_append_right (Nat.le_refl _)]
    simp
  simp only [leadPoints, h]

/-- The built point lists from position `pre.length` on, one after the
other, are the segments from there on with every shared end point twice,
after the points put in front of the first of them. -/
theorem concat_from (rest : List GCodePathMsg) :
    ∀ pre : List GCodePathMsg,
      ((rest.enumFrom pre.length).map fun x => buildPoints (pre ++ rest) x.1 x.2).flatten =
        match rest with
        | [] => []
        | _ :: _ => leadPoints (pre ++ rest) pre.length ++ repeatShared rest := by
  induction rest with
  | nil => intro pre; rfl
  | cons s t ih =>
    intro pre
    have h := ih (pre ++ [s])
    simp only [List.length_append, List.length_singleton, List.append_assoc,
      List.singleton_append] at h
    simp only [List.enumFrom_cons, List.map_cons, List.flatten_cons]
    rw [h, buildPoints_eq]
    cases t with
    | nil => simp [repeatShared]
    | cons s2 t2 => simp [repeatShared, leadPoints_append_length]

/-- C4, amended: once the leading shared point is removed from every built
path that has one, the built paths concatenate, in order, to exactly the
concatenation of the segments' point lists.  Nothing is removed from path 0
or from a path whose previous segment has no points; from every other path
`j + 1` one point is removed, its first, which is the copy of the last point
of segment `j` and equals the last point of built path `j`.  Without the
removal the built paths concatenate to the segments' points with every such
shared end point twice. -/
theorem adapter_continuity (request : CallRequest) :
    ((buildGcodePaths request).map fun p =>
        p.points.drop (sharedCount request.gcode_paths p.original_gcode_path_data)).flatten =
      (request.gcode_paths.map segmentPoints).flatten ∧
    sharedCount request.gcode_paths 0 = 0 ∧
    (∀ j s_prev p, request.gcode_paths[j]? = some s_prev →
      (buildGcodePaths request)[j + 1]? = some p →
      (s_prev.path = [] → sharedCount request.gcode_paths (j + 1) = 0) ∧
      (s_prev.path ≠ [] →
        sharedCount request.gcode_paths (j + 1) = 1 ∧
        p.points.head? = s_prev.path.getLast?.map toIntPoint ∧
        ∃ p_prev, (buildGcodePaths request)[j]? = some p_prev ∧
          p_prev.points.getLast? = p.points.head?)) ∧
    concatPoints (buildGcodePaths request) = repeatShared request.gcode_paths := by
  refine ⟨?_, rfl, ?_, ?_⟩
  · congr 1
    apply List.ext_getElem?
    intro i
    simp only [List.getElem?_map, buildGcodePaths_getElem?]
    cases request.gcode_paths[i]? with
    | none => rfl
    | some m => simp [sharedCount]
  · intro j s_prev p hprev hp
    rw [buildGcodePaths_getElem?] at hp
    cases hcur : request.gcode_paths[j + 1]? with
    | none => simp [hcur] at hp
    | some s_cur =>
      simp only [hcur, Option.map_some', Option.some.injEq] at hp
      subst hp
      constructor
      · intro he
        simp [sharedCount, leadPoints, hprev, he]
      · intro hne
        obtain ⟨a, ha⟩ : ∃ a, s_prev.path.getLast? = some a := by
          cases hl : s_prev.path.getLast? with
          | none => exact absurd (List.getLast?_eq_none_iff.mp hl) hne
          | some a => exact ⟨a, rfl⟩
        refine ⟨by simp [sharedCount, leadPoints, hprev, ha],
          by simp [leadPoints, hprev, ha], ?_⟩
        refine ⟨_, by rw [buildGcodePaths_getElem?, hprev]; rfl, ?_⟩
        simp [leadPoints, hprev, ha, segmentPoints]
  · have h := concat_from request.gcode_paths []
    simp only [List.length_nil, List.nil_append] at h
    have hmap : concatPoints (buildGcodePaths request) =
        ((request.gcode_paths.enumFrom 0).map fun x =>
          buildPoints request.gcode_paths x.1 x.2).flatten := by
      simp [concatPoints, buildGcodePaths, List.enum, List.map_map, Function.comp_def]
    rw [hmap, h]
    cases request.gcode_paths with
    | nil => rfl
    | cons s t => simp [leadPoints]

theorem adapter_continuity_witness :
    exampleRequest.gcode_paths[2]? = some (seg [⟨20, 5⟩]) ∧
    (buildGcodePaths exampleRequest)[2 + 1]? = some ⟨3, [⟨20, 5⟩, ⟨30, 5⟩, ⟨40, 5⟩]⟩ ∧
    (seg [⟨20, 5⟩]).path ≠ [] ∧
    sharedCount exampleRequest.gcode_paths (2 + 1) = 1 ∧
    (⟨3, [⟨20, 5⟩, ⟨30, 5⟩, ⟨40, 5⟩]⟩ : GCodePath).points.head? =
      (seg [⟨20, 5⟩]).path.getLast?.map toIntPoint ∧
    concatPoints (buildGcodePaths exampleRequest) = repeatShared exampleRequest.gcode_paths ∧
    repeatShared exampleRequest.gcode_paths =
      [⟨0, 0⟩, ⟨10, 0⟩, ⟨10, 0⟩, ⟨20, 5⟩, ⟨20, 5⟩, ⟨30, 5⟩, ⟨40, 5⟩] :=
  ⟨rfl, by decide, by decide,
    (((adapter_continuity exampleRequest).2.2.1 2 (seg [⟨20, 5⟩])
      ⟨3, [⟨20, 5⟩, ⟨30, 5⟩, ⟨40, 5⟩]⟩ rfl (by decide)).2 (by decide)).1,
    (((adapter_continuity exampleRequest).2.2.1 2 (seg [⟨20, 5⟩])
      ⟨3, [⟨20, 5⟩, ⟨30, 5⟩, ⟨40, 5⟩]⟩ rfl (by decide)).2 (by decide)).2.1,
    (adapter_continuity exampleRequest).2.2.2, by decide⟩

/-! ## The handler: one iteration -/

theorem renderSvg_ok_of_all {α : Type} (render : α → Except String String) (l : List α) :
    ∀ (svg : String), (∀ p ∈ l, ∃ s, render p = Except.ok s) →
      ∃ out, renderSvg render l svg = Except.ok out := by
  induction l with
  | nil => intro svg _; exact ⟨svg, rfl⟩
  | cons p rest ih =>
    intro svg h
    obtain ⟨s, hs⟩ := h p (List.mem_cons_self _ _)
    simp only [renderSvg, hs]
    exact ih _ fun q hq => h q (List.mem_cons_of_mem _ hq)

theorem renderSvg_error_of_mem {α : Type} (render : α → Except String String) (l : List α) :
    ∀ (svg : String), (∃ p ∈ l, ∃ e, render p = Except.error e) →
      ∃ e, renderSvg render l svg = Except.error e := by
  induction l with
  | nil => intro svg h; obtain ⟨p, hp, _⟩ := h; simp at hp
  | cons p rest ih =>
    intro svg h
    cases hp : render p with
    | error e => exact ⟨e, by simp [renderSvg, hp]⟩
    | ok s =>
      simp only [renderSvg, hp]
      apply ih
      obtain ⟨q, hq, e, he⟩ := h
      rcases List.mem_cons.mp hq with rfl | hq
      · rw [hp] at he; cases he
      · exact ⟨q, hq, e, he⟩

/-- With settings found, the first event of the `try` block is the call of
the engine on the initial state and the built paths. -/
theorem tryBlock_trace (c : Collaborators) (settings : String → Option Settings) (n : Nat)
    (client : String) (request : CallRequest) (s : Settings) (h : settings client = some s) :
    ∃ rest, (tryBlock c settings n client request).trace =
      Event.engineCall (initialState s request) (buildGcodePaths request) :: rest := by
  simp only [tryBlock, h]
  split
  · exact ⟨_, rfl⟩
  · split
    · exact ⟨_, rfl⟩
    · split
      · exact ⟨_, rfl⟩
      · split <;> exact ⟨_, rfl⟩

theorem runOnce_trace (c : Collaborators) (settings : String → Option Settings) (n : Nat)
    (client : String) (request : CallRequest) (s : Settings) (h : settings client = some s) :
    ∃ rest, (runOnce c settings n client request).trace =
      Event.engineCall (initialState s request) (buildGcodePaths request) :: rest := by
  obtain ⟨rest, hr⟩ := tryBlock_trace c settings n client request s h
  simp only [runOnce]
  cases ht : (tryBlock c settings n client request).thrown with
  | none => exact ⟨rest, by simp [Status.ok, Status.OK, hr]⟩
  | some what => exact ⟨rest ++ [Event.error ("Error: " ++ what)], by simp [Status.ok, hr]⟩

theorem run_append_singleton (c : Collaborators) (earlier : List Call) (call : Call) :
    ∀ (n0 : Nat), ∃ n, run c n0 (earlier ++ [call]) =
      run c n0 earlier ++ [runOnce c call.settings n call.client_metadata call.request] := by
  induction earlier with
  | nil => intro n0; exact ⟨n0, by simp [run]⟩
  | cons first rest ih =>
    intro n0
    obtain ⟨n, hn⟩ :=
      ih (runOnce c first.settings n0 first.client_metadata first.request).svg_counter
    exact ⟨n, by simp [run, hn]⟩

/-- With settings found, the engine and the response loop successful, and
both SVG bodies rendered, the call finishes with `OK` and the whole response,
whether or not the SVG files can be opened. -/
theorem runOnce_rendered (c : Collaborators) (settings : String → Option Settings) (n : Nat)
    (client : String) (request : CallRequest) (s : Settings) (l : List RampedSubPath)
    (resp : List GCodePathMsg) (a b : String)
    (hs : settings client = some s)
    (he : c.processGcodePaths request.gcode_paths (initialState s request)
      (buildGcodePaths request) = Except.ok l)
    (hr : fillResponse c request.gcode_paths l = Except.ok resp)
    (h1 : renderSvg c.toSvgPath (buildGcodePaths request) svgHeader = Except.ok a)
    (h2 : renderSvg c.toSvgPathDiscretized l svgHeader = Except.ok b) :
    (runOnce c settings n client request).status = Status.OK ∧
    (runOnce c settings n client request).response = some resp := by
  simp [runOnce, tryBlock, hs, he, hr, saveSvg, h1, h2, Status.ok, Status.OK]

/-- An exception while the SVG of the built paths is rendered ends the call
with `INTERNAL` and no response. -/
theorem runOnce_render_original_error (c : Collaborators) (settings : String → Option Settings)
    (n : Nat) (client : String) (request : CallRequest) (s : Settings) (l : List RampedSubPath)
    (resp : List GCodePathMsg) (e : String)
    (hs : settings client = some s)
    (he : c.processGcodePaths request.gcode_paths (initialState s request)
      (buildGcodePaths request) = Except.ok l)
    (hr : fillResponse c request.gcode_paths l = Except.ok resp)
    (h1 : renderSvg c.toSvgPath (buildGcodePaths request) svgHeader = Except.error e) :
    (runOnce c settings n client request).status = ⟨StatusCode.INTERNAL, e⟩ ∧
    (runOnce c settings n client request).response = none := by
  simp [runOnce, tryBlock, hs, he, hr, saveSvg, h1, Status.ok]

/-- An exception while the SVG of the engine's output is rendered ends the
call with `INTERNAL` and no response. -/
theorem runOnce_render_discretized_error (c : Collaborators)
    (settings : String → Option Settings)
    (n : Nat) (client : String) (request : CallRequest) (s : Settings) (l : List RampedSubPath)
    (resp : List GCodePathMsg) (a e : String)
    (hs : settings client = some s)
    (he : c.processGcodePaths request.gcode_paths (initialState s request)
      (buildGcodePaths request) = Except.ok l)
    (hr : fillResponse c request.gcode_paths l = Except.ok resp)
    (h1 : renderSvg c.toSvgPath (buildGcodePaths request) svgHeader = Except.ok a)
    (h2 : renderSvg c.toSvgPathDiscretized l svgHeader = Except.error e) :
    (runOnce c settings n client request).status = ⟨StatusCode.INTERNAL, e⟩ ∧
    (runOnce c settings n client request).response = none := by
  simp [runOnce, tryBlock, hs, he, hr, saveSvg, h1, h2, Status.ok]

/-- The stand-in engine on the scenario: two sub-paths, at flows 5 and 10. -/
theorem scenario_engine_output (g : ArcLength) (enabled : Bool) :
    scenarioEngine g scenarioRequest.gcode_paths
        (initialState (scenarioSettings enabled) scenarioRequest)
        (buildGcodePaths scenarioRequest) =
      [⟨0, g.window [⟨0, 0⟩, ⟨100, 0⟩, ⟨200, 0⟩] 50 1 2 0, 5⟩,
        ⟨0, g.window [⟨0, 0⟩, ⟨100, 0⟩, ⟨200, 0⟩] 50 1 2 1, 10⟩] := by
  simp [scenarioEngine, scenarioRequest, buildGcodePaths, initialState, scenarioSettings, seg,
    buildPoints, toIntPoint]

theorem fillResponse_total (c : Collaborators) (records : List GCodePathMsg)
    (f : RampedSubPath → GCodePathMsg)
    (hc : c.to_grpc_message = fun _ p => Except.ok (f p)) (l : List RampedSubPath) :
    fillResponse c records l = Except.ok (l.map f) := by
  induction l with
  | nil => rfl
  | cons p rest ih => simp [fillResponse, hc, ih]

/-- The response that `toGrpcMessage` fills for the scenario. -/
theorem scenario_response (c : Collaborators) (g : ArcLength)
    (hc : c.to_grpc_message = toGrpcMessage) :
    fillResponse c scenarioRequest.gcode_paths
        [⟨0, g.window [⟨0, 0⟩, ⟨100, 0⟩, ⟨200, 0⟩] 50 1 2 0, 5⟩,
          ⟨0, g.window [⟨0, 0⟩, ⟨100, 0⟩, ⟨200, 0⟩] 50 1 2 1, 10⟩] =
      Except.ok
        [⟨(g.window [⟨0, 0⟩, ⟨100, 0⟩, ⟨200, 0⟩] 50 1 2 0).map (fun q => ⟨q.X, q.Y⟩), 5, 50,
            "WALL"⟩,
          ⟨(g.window [⟨0, 0⟩, ⟨100, 0⟩, ⟨200, 0⟩] 50 1 2 1).map (fun q => ⟨q.X, q.Y⟩), 10, 50,
            "WALL"⟩] := by
  simp [fillResponse, hc, toGrpcMessage, scenarioRequest, seg]

/-! ## Claims about the handler -/

/-- C5: whatever calls were handled before, the state handed to the engine
for a call whose settings are found has `current_flow = 0`,
`discretized_duration = gradual_flow_discretisation_step_size`, and
`flow_acceleration = layer_0_max_flow_acceleration` when `layer_nr` is 0 and
`max_flow_acceleration` for every other layer number. -/
theorem initial_flow_state (c : Collaborators) (n0 : Nat) (earlier : List Call) (call : Call)
    (s : Settings) (h : call.settings call.client_metadata = some s) :
    ∃ o rest, (run c n0 (earlier ++ [call])).getLast? = some o ∧
      o.trace =
        Event.engineCall
          { current_flow := 0
            flow_acceleration :=
              if call.request.layer_nr = 0 then s.layer_0_max_flow_acceleration
              else s.max_flow_acceleration
            discretized_duration := s.gradual_flow_discretisation_step_size }
          (buildGcodePaths call.request) :: rest := by
  obtain ⟨n, hn⟩ := run_append_singleton c earlier call n0
  obtain ⟨rest, hr⟩ :=
    runOnce_trace c call.settings n call.client_metadata call.request s h
  exact ⟨_, rest, by rw [hn, List.getLast?_append]; rfl, hr⟩

theorem initial_flow_state_witness :
    scenarioCall.settings scenarioCall.client_metadata = some (scenarioSettings true) ∧
    ∃ o rest, (run (specCollaborators wholeWindow) 0 ([layerZeroCall] ++ [scenarioCall])).getLast?
        = some o ∧
      o.trace =
        Event.engineCall
          { current_flow := 0
            flow_acceleration :=
              if scenarioCall.request.layer_nr = 0 then
                (scenarioSettings true).layer_0_max_flow_acceleration
              else (scenarioSettings true).max_flow_acceleration
            discretized_duration := (scenarioSettings true).gradual_flow_discretisation_step_size }
          (buildGcodePaths scenarioCall.request) :: rest :=
  ⟨by simp [scenarioCall, oneClientStore],
    initial_flow_state (specCollaborators wholeWindow) 0 [layerZeroCall] scenarioCall
      (scenarioSettings true) (by simp [scenarioCall, oneClientStore])⟩

/-- C7: a call whose client has no entry in the settings store finishes with
status `INTERNAL` and without a response; nothing but the error is logged, the
engine is not called, no file is written, and the outcome is the same
whatever the request holds. -/
theorem missing_settings_fail (c : Collaborators) (settings : String → Option Settings)
    (n : Nat) (client : String) (request : CallRequest) (h : settings client = none) :
    (runOnce c settings n client request).status = ⟨StatusCode.INTERNAL, c.out_of_range_what⟩ ∧
    (runOnce c settings n client request).response = none ∧
    (runOnce c settings n client request).trace =
      [Event.error ("Error: " ++ c.out_of_range_what)] ∧
    (∀ st paths, Event.engineCall st paths ∉ (runOnce c settings n client request).trace) ∧
    (runOnce c settings n client request).svg_counter = n ∧
    ∀ request2, runOnce c settings n client request2 = runOnce c settings n client request := by
  simp [runOnce, tryBlock, h, Status.ok]

theorem missing_settings_fail_witness :
    oneClientStore (scenarioSettings true) "client-2" = none ∧
    (runOnce (specCollaborators wholeWindow) (oneClientStore (scenarioSettings true)) 0
        "client-2" scenarioRequest).status = ⟨StatusCode.INTERNAL, "unordered_map::at"⟩ :=
  ⟨by decide,
    (missing_settings_fail (specCollaborators wholeWindow)
      (oneClientStore (scenarioSettings true)) 0 "client-2" scenarioRequest (by decide)).1⟩

/-- C3, the code at a request with `gradual_flow_enabled = false`: the engine
is called all the same, on the initial state and the built path.  With an
engine that returns the two sub-paths at flows 5 and 10 that section 8 of the
specification gives for this input, the response holds two paths, at flows 5
and 10, where the request holds one path at flow 10; and whatever sub-paths
the engine returns, the response holds their records, not the request's. -/
theorem bypass_not_taken :
    (∀ c : Collaborators, ∃ rest,
      (runOnce c (oneClientStore (scenarioSettings false)) 0 "client-1" scenarioRequest).trace =
        Event.engineCall ⟨0, 5, 1⟩ [⟨0, [⟨0, 0⟩, ⟨100, 0⟩, ⟨200, 0⟩]⟩] :: rest) ∧
    (∀ g : ArcLength,
      (runOnce (specCollaborators g) (oneClientStore (scenarioSettings false)) 0 "client-1"
          scenarioRequest).response.map (fun r => r.map fun m => m.flow) = some [5, 10]) ∧
    scenarioRequest.gcode_paths.map (fun m => m.flow) = [10] ∧
    (∀ (l : List RampedSubPath) (f : RampedSubPath → GCodePathMsg) (canOpen : String → Bool)
        (what : String),
      (runOnce ⟨fun _ _ _ => Except.ok l, fun _ p => Except.ok (f p), fun _ => Except.ok "",
          fun _ => Except.ok "", canOpen, what⟩
        (oneClientStore (scenarioSettings false)) 0 "client-1" scenarioRequest).response =
        some (l.map f)) := by
  have hs : oneClientStore (scenarioSettings false) "client-1" = some (scenarioSettings false) := by
    simp [oneClientStore]
  refine ⟨?_, ?_, by simp [scenarioRequest, seg], ?_⟩
  rotate_left 2
  · intro l f canOpen what
    obtain ⟨a, ha⟩ := renderSvg_ok_of_all (fun _ : GCodePath => (Except.ok "" : Except String String))
      (buildGcodePaths scenarioRequest) svgHeader (fun p _ => ⟨_, rfl⟩)
    obtain ⟨b, hb⟩ := renderSvg_ok_of_all
      (fun _ : RampedSubPath => (Except.ok "" : Except String String))
      l svgHeader (fun p _ => ⟨_, rfl⟩)
    exact (runOnce_rendered _ _ 0 "client-1" scenarioRequest _ l (l.map f) a b hs rfl
      (fillResponse_total _ _ f rfl l) ha hb).2
  · intro c
    obtain ⟨rest, hr⟩ := runOnce_trace c _ 0 "client-1" scenarioRequest _ hs
    refine ⟨rest, ?_⟩
    rw [hr]
    simp [initialState, scenarioSettings, scenarioRequest, buildGcodePaths, buildPoints, seg,
      toIntPoint]
  · intro g
    obtain ⟨a, ha⟩ := renderSvg_ok_of_all (specCollaborators g).toSvgPath
      (buildGcodePaths scenarioRequest) svgHeader (fun p _ => ⟨_, rfl⟩)
    obtain ⟨b, hb⟩ := renderSvg_ok_of_all (specCollaborators g).toSvgPathDiscretized
      (scenarioEngine g scenarioRequest.gcode_paths
        (initialState (scenarioSettings false) scenarioRequest)
        (buildGcodePaths scenarioRequest)) svgHeader (fun p _ => ⟨_, rfl⟩)
    have hfill := scenario_response (specCollaborators g) g rfl
    rw [← scenario_engine_output g false] at hfill
    have := (runOnce_rendered (specCollaborators g) _ 0 "client-1" scenarioRequest _ _ _ a b
      hs rfl hfill ha hb).2
    rw [this]
    simp

/-- C9, as stated, fails: the settings are found, the engine and the
response loop succeed, rendering the SVG of the built paths throws, and the
call finishes with `INTERNAL` and without a response. -/
theorem render_failure_fails_call :
    oneClientStore (scenarioSettings true) "client-1" = some (scenarioSettings true) ∧
    (∃ l resp,
      failingRender.processGcodePaths scenarioRequest.gcode_paths
        (initialState (scenarioSettings true) scenarioRequest)
        (buildGcodePaths scenarioRequest) = Except.ok l ∧
      fillResponse failingRender scenarioRequest.gcode_paths l = Except.ok resp) ∧
    (runOnce failingRender (oneClientStore (scenarioSettings true)) 0 "client-1"
        scenarioRequest).status = ⟨StatusCode.INTERNAL, "cannot render path"⟩ ∧
    (runOnce failingRender (oneClientStore (scenarioSettings true)) 0 "client-1"
        scenarioRequest).response = none := by
  have hs : oneClientStore (scenarioSettings true) "client-1" = some (scenarioSettings true) := by
    simp [oneClientStore]
  have hfill := scenario_response failingRender wholeWindow rfl
  rw [← scenario_engine_output wholeWindow true] at hfill
  have hrender : renderSvg failingRender.toSvgPath (buildGcodePaths scenarioRequest) svgHeader =
      Except.error "cannot render path" := by
    simp [renderSvg, failingRender, buildGcodePaths, scenarioRequest]
  exact ⟨hs, ⟨_, _, rfl, hfill⟩,
    runOnce_render_original_error failingRender _ 0 "client-1" scenarioRequest _ _ _ _
      hs rfl hfill hrender⟩

theorem fillResponse_congr (c c2 : Collaborators) (records : List GCodePathMsg)
    (h : c2.to_grpc_message = c.to_grpc_message) (l : List RampedSubPath) :
    fillResponse c2 records l = fillResponse c records l := by
  induction l with
  | nil => rfl
  | cons p rest ih => simp only [fillResponse, h, ih]

/-- C9, amended: with the settings found and the engine and the response
loop successful, a debug SVG file that cannot be opened or written is
ignored: when every path renders, the call finishes with `OK` and the whole
response whatever files can be opened.  An exception thrown while a path is
rendered for either SVG is not swallowed: the call finishes with `INTERNAL` and
without a response. -/
theorem debug_step_outcome (c : Collaborators) (settings : String → Option Settings) (n : Nat)
    (client : String) (request : CallRequest) (s : Settings) (l : List RampedSubPath)
    (resp : List GCodePathMsg)
    (hs : settings client = some s)
    (he : c.processGcodePaths request.gcode_paths (initialState s request)
      (buildGcodePaths request) = Except.ok l)
    (hr : fillResponse c request.gcode_paths l = Except.ok resp) :
    ((∀ p ∈ buildGcodePaths request, ∃ t, c.toSvgPath p = Except.ok t) →
      (∀ p ∈ l, ∃ t, c.toSvgPathDiscretized p = Except.ok t) →
      ∀ canOpen : String → Bool,
        (runOnce { c with canOpen := canOpen } settings n client request).status = Status.OK ∧
        (runOnce { c with canOpen := canOpen } settings n client request).response =
          some resp) ∧
    (((∃ p ∈ buildGcodePaths request, ∃ e, c.toSvgPath p = Except.error e) ∨
        (∃ p ∈ l, ∃ e, c.toSvgPathDiscretized p = Except.error e)) →
      (runOnce c settings n client request).status.code = StatusCode.INTERNAL ∧
      (runOnce c settings n client request).response = none) := by
  constructor
  · intro hall1 hall2 canOpen
    obtain ⟨a, ha⟩ := renderSvg_ok_of_all c.toSvgPath (buildGcodePaths request) svgHeader hall1
    obtain ⟨b, hb⟩ := renderSvg_ok_of_all c.toSvgPathDiscretized l svgHeader hall2
    exact runOnce_rendered { c with canOpen := canOpen } settings n client request s l resp a b
      hs he ((fillResponse_congr c { c with canOpen := canOpen } _ rfl l).trans hr) ha hb
  · intro hfail
    cases h1 : renderSvg c.toSvgPath (buildGcodePaths request) svgHeader with
    | error e =>
      have := runOnce_render_original_error c settings n client request s l resp e hs he hr h1
      exact ⟨by rw [this.1], this.2⟩
    | ok a =>
      rcases hfail with hf | hf
      · obtain ⟨e, he1⟩ := renderSvg_error_of_mem c.toSvgPath _ svgHeader hf
        rw [h1] at he1
        cases he1
      · obtain ⟨e, he2⟩ := renderSvg_error_of_mem c.toSvgPathDiscretized l svgHeader hf
        have := runOnce_render_discretized_error c settings n client request s l resp a e
          hs he hr h1 he2
        exact ⟨by rw [this.1], this.2⟩

theorem debug_step_outcome_witness :
    oneClientStore (scenarioSettings true) "client-1" = some (scenarioSettings true) ∧
    (∃ l resp,
      closedDirectory.processGcodePaths scenarioRequest.gcode_paths
        (initialState (scenarioSettings true) scenarioRequest)
        (buildGcodePaths scenarioRequest) = Except.ok l ∧
      fillResponse closedDirectory scenarioRequest.gcode_paths l = Except.ok resp ∧
      (runOnce { closedDirectory with canOpen := fun _ => false }
        (oneClientStore (scenarioSettings true)) 0 "client-1" scenarioRequest).status =
          Status.OK ∧
      (runOnce { closedDirectory with canOpen := fun _ => false }
        (oneClientStore (scenarioSettings true)) 0 "client-1" scenarioRequest).response =
          some resp) := by
  have hs : oneClientStore (scenarioSettings true) "client-1" = some (scenarioSettings true) := by
    simp [oneClientStore]
  have hfill := scenario_response closedDirectory wholeWindow rfl
  rw [← scenario_engine_output wholeWindow true] at hfill
  exact ⟨hs, _, _, rfl, hfill,
    (debug_step_outcome closedDirectory (oneClientStore (scenarioSettings true)) 0 "client-1"
      scenarioRequest (scenarioSettings true) _ _ hs rfl hfill).1
      (fun p _ => ⟨_, rfl⟩) (fun p _ => ⟨_, rfl⟩) (fun _ => false)⟩

end GradualFlow
